import Mathlib

/-!
Verification development for the `service_discovery_namespace` Ansible module
(`lib/ansible/modules/cloud/amazon/service_discovery_namespace.py`).

The module reconciles a single AWS Cloud Map (service discovery) namespace
against a desired state.  We embed the functions of the module shallowly: Python
dict values become the `JVal` type, the boto3 `servicediscovery` client
becomes an abstract `RemoteModel` (a family of response/transition functions
over an opaque remote-state type), and each Python method becomes a Lean
function that threads the remote state and records the API calls it issues.
Python exceptions are modelled with `Except PyError`.
-/

namespace SDNamespace

/-- A Python/JSON-like value as handled by the module: strings, numbers,
booleans, datetimes (carrying their `str()` rendering), lists and dicts. -/
inductive JVal where
  | str (s : String)
  | nat (n : Nat)
  | bool (b : Bool)
  | datetime (d : String)
  | list (elems : List JVal)
  | dict (entries : List (String × JVal))

mutual

/-- Python `str()` on a value; on a datetime it yields the string rendering of the datetime (the payload of the `datetime` constructor). -/
def pyStr : JVal → String
  | JVal.str s => s
  | JVal.nat n => toString n
  | JVal.bool b => if b then "True" else "False"
  | JVal.datetime d => d
  | JVal.list elems => "[" ++ pyStrElems elems ++ "]"
  | JVal.dict entries => "\x7b" ++ pyStrEntries entries ++ "\x7d"

def pyStrElems : List JVal → String
  | [] => ""
  | [v] => pyStr v
  | v :: rest => pyStr v ++ ", " ++ pyStrElems rest

def pyStrEntries : List (String × JVal) → String
  | [] => ""
  | [(k, v)] => k ++ ": " ++ pyStr v
  | (k, v) :: rest => k ++ ": " ++ pyStr v ++ ", " ++ pyStrEntries rest

end

/-- Python truthiness of a value (empty string/list/dict, 0 and False are
falsy). -/
def pyTruthy : JVal → Bool
  | JVal.str s => !(s == "")
  | JVal.nat n => !(n == 0)
  | JVal.bool b => b
  | JVal.datetime _ => true
  | JVal.list elems => !elems.isEmpty
  | JVal.dict entries => !entries.isEmpty

/-- Python truthiness of an optional string parameter (`None` and the empty
string are falsy). -/
def pyTruthyStr : Option String → Bool
  | none => false
  | some s => !(s == "")

/-- Modelled from the spec: the generic camel-case-to-snake-case key
conversion (`camel_dict_to_snake_dict` lives in ansible module_utils, outside
the source of this module): each upper-case letter is lowered and, unless it is
the first character, prefixed with an underscore. -/
def camelToSnake (s : String) : String :=
  s.data.foldl
    (fun acc c =>
      if c.isUpper then
        (if acc.isEmpty then acc else acc ++ "_") ++ c.toLower.toString
      else acc ++ c.toString)
    ""

mutual

/-- Modelled from the spec: `camel_dict_to_snake_dict` recursively renames
every dict key from the remote camel-case convention to the caller-facing
snake-case convention, leaving values otherwise unchanged. -/
def camelValToSnake : JVal → JVal
  | JVal.dict entries => JVal.dict (camelEntriesToSnake entries)
  | JVal.list elems => JVal.list (camelElemsToSnake elems)
  | v => v

def camelEntriesToSnake : List (String × JVal) → List (String × JVal)
  | [] => []
  | (k, v) :: rest => (camelToSnake k, camelValToSnake v) :: camelEntriesToSnake rest

def camelElemsToSnake : List JVal → List JVal
  | [] => []
  | v :: rest => camelValToSnake v :: camelElemsToSnake rest

end

/-- Coerce a value to its Python string form, as `str(x)` does. -/
def strCoerce (v : JVal) : JVal := JVal.str (pyStr v)

/-- Update the value stored under key `k` when present (Python
`if k in d: d[k] = f(d[k])`); a dict has at most one entry per key, so this
maps over the entries. -/
def alistUpdate (entries : List (String × JVal)) (k : String)
    (f : JVal → JVal) : List (String × JVal) :=
  entries.map (fun kv => if kv.1 == k then (kv.1, f kv.2) else kv)

/-- Entry-level effect of the per-deployment loop in `jsonize`: stringify
`createdAt` and `updatedAt` when present. -/
def jsonizeDeploymentEntries (entries : List (String × JVal)) :
    List (String × JVal) :=
  alistUpdate (alistUpdate entries "createdAt" strCoerce)
    "updatedAt" strCoerce

/-- Per-deployment normalization inside `jsonize`. -/
def jsonizeDeployment (d : JVal) : JVal :=
  match d with
  | JVal.dict entries => JVal.dict (jsonizeDeploymentEntries entries)
  | v => v

/-- Entry-level effect of the per-event loop in `jsonize`: stringify
`createdAt` when present. -/
def jsonizeEventEntries (entries : List (String × JVal)) :
    List (String × JVal) :=
  alistUpdate entries "createdAt" strCoerce

/-- Per-event normalization inside `jsonize`. -/
def jsonizeEvent (e : JVal) : JVal :=
  match e with
  | JVal.dict entries => JVal.dict (jsonizeEventEntries entries)
  | v => v

/-- Apply `f` to every element of a list value (the `for d in service[k]`
loops in `jsonize`); non-list values pass through. -/
def mapElems (f : JVal → JVal) (v : JVal) : JVal :=
  match v with
  | JVal.list elems => JVal.list (elems.map f)
  | v => v

/-- Entry-level effect of `jsonize` on a dict: stringify the top-level
`createdAt`, then rewrite the `deployments` and `events` lists
element-wise, whenever those keys are present. -/
def jsonizeEntries (entries : List (String × JVal)) :
    List (String × JVal) :=
  alistUpdate
    (alistUpdate
      (alistUpdate entries "createdAt" strCoerce)
      "deployments" (mapElems jsonizeDeployment))
    "events" (mapElems jsonizeEvent)

/-- `ServiceDiscoveryNamespace.jsonize`: datetime-valued fields are made
strings — the top-level `createdAt`, the `createdAt` and
`updatedAt` of each deployment, and the `createdAt` of each event, whenever those keys are present. -/
def jsonize (service : JVal) : JVal :=
  match service with
  | JVal.dict entries => JVal.dict (jsonizeEntries entries)
  | v => v

/-- A namespace summary as returned by `list_namespaces` inside the
`Namespaces` array; field `NsType` models the dict key `Type` (a Lean
keyword). -/
structure NsSummary where
  Id : String
  Name : String
  NsType : String
  deriving Repr, DecidableEq

/-- Response of the remote `list_namespaces` call. -/
structure ListResp where
  Namespaces : List NsSummary
  deriving Repr, DecidableEq

/-- Response of the remote `get_namespace` call (its `Namespace` entry). -/
structure GetNsResp where
  Namespace : JVal

/-- The `Operation` entry of a `get_operation` response: a status plus the
`Targets` map (e.g. key `NAMESPACE` to the created namespace id). -/
structure OpDetail where
  Status : String
  Targets : List (String × String)
  deriving Repr, DecidableEq

/-- Response of the remote `get_operation` call. -/
structure OpResp where
  Operation : OpDetail
  deriving Repr, DecidableEq

/-- Response of the remote create calls: the asynchronous operation id. -/
structure CreateResp where
  OperationId : String
  deriving Repr, DecidableEq

/-- The create response dict as a value (`dict(OperationId=...)`), which is
what `create_*_dns_namespace` returns when `wait` is false. -/
def CreateResp.toJVal (r : CreateResp) : JVal :=
  JVal.dict [("OperationId", JVal.str r.OperationId)]

/-- Keyword arguments `create_public_dns_namespace` passes to the remote
create call; `CreatorRequestId` and `description` (lower-case key, exactly as
in the source) are only included when truthy.  There is no vpc field. -/
structure CreatePublicParams where
  Name : String
  CreatorRequestId : Option String
  description : Option String
  deriving Repr, DecidableEq

/-- Keyword arguments `create_private_dns_namespace` passes to the remote
create call; `Vpc` is always included (possibly `None`). -/
structure CreatePrivateParams where
  Name : String
  Vpc : Option String
  CreatorRequestId : Option String
  description : Option String
  deriving Repr, DecidableEq

/-- One remote API call issued by the module, with its arguments.  The list
call records the effective type filter (`none` when no filter was built). -/
inductive ApiCall where
  | listNamespaces (typeFilter : Option String)
  | getNamespace (id : String)
  | getOperation (operationId : String)
  | createPublicDns (params : CreatePublicParams)
  | createPrivateDns (params : CreatePrivateParams)
  | deleteNamespace (id : String)
  deriving Repr, DecidableEq

/-- Python exceptions the embedded code can raise. -/
inductive PyError where
  | indexError
  | keyError (k : String)
  | waiterError
  | unboundLocal
  | typeError
  | attributeError
  deriving Repr, DecidableEq

/-- Python `str(e)` of the exceptions we model; for the waiter error this is
the botocore message. -/
def pyErrStr : PyError → String
  | PyError.indexError => "list index out of range"
  | PyError.keyError k => k
  | PyError.waiterError => "Waiter namespace_created failed: Max attempts exceeded"
  | PyError.unboundLocal => "local variable referenced before assignment"
  | PyError.typeError => "argument must be a mapping"
  | PyError.attributeError => "NoneType object has no attribute items"

/-- The abstract remote control plane (the boto3 `servicediscovery` client):
response and state-transition functions over an opaque remote-state type
`S`.  Every call may advance the remote state, so a stateful fake (or a real
service whose operations progress over time) instantiates this directly. -/
structure RemoteModel (S : Type) where
  listNamespacesApi : S → Option String → ListResp × S
  getNamespaceApi : S → String → GetNsResp × S
  getOperationApi : S → String → OpResp × S
  createPublicApi : S → CreatePublicParams → CreateResp × S
  createPrivateApi : S → CreatePrivateParams → CreateResp × S
  deleteNamespaceApi : S → String → S

/-- The fixed waiter configuration `sd_waiter_config`: poll `GetOperation`
with delay 5 up to 10 attempts until `Operation.Status` equals `SUCCESS`. -/
structure WaiterConfig where
  delay : Nat
  maxAttempts : Nat
  argument : String
  expected : String
  deriving Repr, DecidableEq

def sd_waiter_config : WaiterConfig :=
  { delay := 5
    maxAttempts := 10
    argument := "Operation.Status"
    expected := "SUCCESS" }

/-- The botocore waiter loop with `fuel` attempts remaining: each attempt
issues one `get_operation` call and succeeds as soon as the status matches
`sd_waiter_config.expected`; exhausting the attempt budget raises a
`WaiterError`. -/
def waiterLoop {S : Type} (rm : RemoteModel S) (operationId : String) :
    Nat → S → Except PyError Unit × S × List ApiCall
  | 0, s => (Except.error PyError.waiterError, s, [])
  | Nat.succ n, s =>
      let r := rm.getOperationApi s operationId
      if r.1.Operation.Status == sd_waiter_config.expected then
        (Except.ok (), r.2, [ApiCall.getOperation operationId])
      else
        let rest := waiterLoop rm operationId n r.2
        (rest.1, rest.2.1, ApiCall.getOperation operationId :: rest.2.2)

/-- `waiter.wait(OperationId=...)` with the `NamespaceCreated` waiter. -/
def waiterWait {S : Type} (rm : RemoteModel S) (s : S) (operationId : String) :
    Except PyError Unit × S × List ApiCall :=
  waiterLoop rm operationId sd_waiter_config.maxAttempts s

/-- `ServiceDiscoveryNamespace.list_namespaces`: a type filter is built only
when `type` is truthy; then the remote list call is issued. -/
def list_namespaces {S : Type} (rm : RemoteModel S) (s : S)
    (type : Option String) : ListResp × S × List ApiCall :=
  let filt : Option String := if pyTruthyStr type then type else none
  let r := rm.listNamespacesApi s filt
  (r.1, r.2, [ApiCall.listNamespaces filt])

/-- `ServiceDiscoveryNamespace.get_namespaces_by_name`: list namespaces
filtered by type, then keep those whose `Name` equals `namespace_name`.
(The `if not namespaces: return None` guard in the source tests the truthiness of
the response dict, which always carries the `Namespaces` key, so it never
fires.) -/
def get_namespaces_by_name {S : Type} (rm : RemoteModel S) (s : S)
    (namespace_name : String) (type : Option String) :
    List NsSummary × S × List ApiCall :=
  let r := list_namespaces rm s type
  (r.1.Namespaces.filter (fun ns => ns.Name == namespace_name), r.2.1, r.2.2)

/-- `ServiceDiscoveryNamespace.get_namespace`: fetch by id, return `None`
for a falsy payload and the `jsonize`d namespace otherwise. -/
def get_namespace {S : Type} (rm : RemoteModel S) (s : S)
    (namespace_id : String) : Option JVal × S × List ApiCall :=
  let r := rm.getNamespaceApi s namespace_id
  if pyTruthy r.1.Namespace then
    (some (jsonize r.1.Namespace), r.2, [ApiCall.getNamespace namespace_id])
  else
    (none, r.2, [ApiCall.getNamespace namespace_id])

/-- Look up a key in the `Targets` map, raising `KeyError` when absent. -/
def targetsGet (targets : List (String × String)) (k : String) :
    Except PyError String :=
  match targets.find? (fun kv => kv.1 == k) with
  | some kv => Except.ok kv.2
  | none => Except.error (PyError.keyError k)

/-- The parameter dict built by `create_public_dns_namespace`: always
`Name`, plus `CreatorRequestId` and `description` only when truthy. -/
def pubParams (name : String) (description creator_request_id : Option String) :
    CreatePublicParams :=
  { Name := name
    CreatorRequestId :=
      if pyTruthyStr creator_request_id then creator_request_id else none
    description := if pyTruthyStr description then description else none }

/-- The parameter dict built by `create_private_dns_namespace`: always
`Name` and `Vpc`, plus `CreatorRequestId` and `description` only when
truthy. -/
def privParams (name : String)
    (description creator_request_id vpc_id : Option String) :
    CreatePrivateParams :=
  { Name := name
    Vpc := vpc_id
    CreatorRequestId :=
      if pyTruthyStr creator_request_id then creator_request_id else none
    description := if pyTruthyStr description then description else none }

/-- `ServiceDiscoveryNamespace.create_public_dns_namespace`: build the
parameter dict (no vpc field; optional entries only when truthy), issue the
create call, and either wait (poll, resolve the target namespace id, fetch
it) or return the raw create response. -/
def create_public_dns_namespace {S : Type} (rm : RemoteModel S) (s : S)
    (name : String) (description creator_request_id : Option String)
    (wait : Bool) : Except PyError JVal × S × List ApiCall :=
  let params := pubParams name description creator_request_id
  let r := rm.createPublicApi s params
  let operation := r.1.OperationId
  if wait then
    let w := waiterWait rm r.2 operation
    match w.1 with
    | Except.error e =>
        (Except.error e, w.2.1, ApiCall.createPublicDns params :: w.2.2)
    | Except.ok _ =>
        let o := rm.getOperationApi w.2.1 operation
        match targetsGet o.1.Operation.Targets "NAMESPACE" with
        | Except.error e =>
            (Except.error e, o.2,
              ApiCall.createPublicDns params :: w.2.2 ++
                [ApiCall.getOperation operation])
        | Except.ok namespace_id =>
            let g := rm.getNamespaceApi o.2 namespace_id
            (Except.ok g.1.Namespace, g.2,
              ApiCall.createPublicDns params :: w.2.2 ++
                [ApiCall.getOperation operation,
                 ApiCall.getNamespace namespace_id])
  else
    (Except.ok r.1.toJVal, r.2, [ApiCall.createPublicDns params])

/-- `ServiceDiscoveryNamespace.create_private_dns_namespace`: same as the
public variant but the parameter dict always carries `Vpc=vpc_id`. -/
def create_private_dns_namespace {S : Type} (rm : RemoteModel S) (s : S)
    (name : String) (description creator_request_id vpc_id : Option String)
    (wait : Bool) : Except PyError JVal × S × List ApiCall :=
  let params := privParams name description creator_request_id vpc_id
  let r := rm.createPrivateApi s params
  let operation := r.1.OperationId
  if wait then
    let w := waiterWait rm r.2 operation
    match w.1 with
    | Except.error e =>
        (Except.error e, w.2.1, ApiCall.createPrivateDns params :: w.2.2)
    | Except.ok _ =>
        let o := rm.getOperationApi w.2.1 operation
        match targetsGet o.1.Operation.Targets "NAMESPACE" with
        | Except.error e =>
            (Except.error e, o.2,
              ApiCall.createPrivateDns params :: w.2.2 ++
                [ApiCall.getOperation operation])
        | Except.ok namespace_id =>
            let g := rm.getNamespaceApi o.2 namespace_id
            (Except.ok g.1.Namespace, g.2,
              ApiCall.createPrivateDns params :: w.2.2 ++
                [ApiCall.getOperation operation,
                 ApiCall.getNamespace namespace_id])
  else
    (Except.ok r.1.toJVal, r.2, [ApiCall.createPrivateDns params])

/-- `ServiceDiscoveryNamespace.create_namespace`: dispatch on `type` (two
independent `if`s in the source; any other value leaves the local
`namespace` unbound) and `jsonize` the result. -/
def create_namespace {S : Type} (rm : RemoteModel S) (s : S) (name : String)
    (type : Option String) (description creator_request_id vpc_id : Option String)
    (wait : Bool) : Except PyError JVal × S × List ApiCall :=
  if type == some "DNS_PRIVATE" then
    let r := create_private_dns_namespace rm s name description
      creator_request_id vpc_id wait
    (r.1.map jsonize, r.2.1, r.2.2)
  else if type == some "DNS_PUBLIC" then
    let r := create_public_dns_namespace rm s name description
      creator_request_id wait
    (r.1.map jsonize, r.2.1, r.2.2)
  else
    (Except.error PyError.unboundLocal, s, [])

/-- `ServiceDiscoveryNamespace.delete_namespace`: issue the remote delete
call (its acknowledgement response is unused by `main`). -/
def delete_namespace {S : Type} (rm : RemoteModel S) (s : S) (id : String) :
    S × List ApiCall :=
  (rm.deleteNamespaceApi s id, [ApiCall.deleteNamespace id])

/-- The module parameters after argument parsing.  `state` and `name` are
required (hence plain strings); the rest default to `None`. -/
structure ModuleParams where
  state : String
  type : Option String
  name : String
  creator_request_id : Option String
  description : Option String
  wait : Bool
  vpc_id : Option String
  deriving Repr, DecidableEq

/-- The value a parameter holds, by its name, `none` meaning Python `None`
(as `module.params.get` would see it). -/
def paramValue (p : ModuleParams) : String → Option String
  | "state" => some p.state
  | "type" => p.type
  | "name" => some p.name
  | "creator_request_id" => p.creator_request_id
  | "description" => p.description
  | "vpc_id" => p.vpc_id
  | _ => none

/-- The `choices` constraints of the argument spec: `state` must be
`present` or `absent`, `type` (when supplied) `DNS_PRIVATE` or
`DNS_PUBLIC`. -/
def choicesOk (p : ModuleParams) : Bool :=
  (p.state == "present" || p.state == "absent") &&
    (match p.type with
     | none => true
     | some t => t == "DNS_PRIVATE" || t == "DNS_PUBLIC")

/-- The `required_if` rules passed to the module framework, exactly as in
the source: `("type", "private", ["vpc_id"])` names the value `private`,
not the declared choice `DNS_PRIVATE`. -/
def required_if_rules : List (String × String × List String) :=
  [("state", "present", ["type"]), ("type", "private", ["vpc_id"])]

/-- Modelled from the spec: the `required_if` validation of the module
framework (the framework lives outside the source of this module).  A rule
`(key, value, requirements)` fires when the parameter named `key` holds
exactly `value`, and then every parameter in `requirements` must be
supplied (not `None`). -/
def requiredIfOk (p : ModuleParams) : Bool :=
  required_if_rules.all (fun rule =>
    if paramValue p rule.1 == some rule.2.1 then
      rule.2.2.all (fun r => (paramValue p r).isSome)
    else true)

/-- Argument validation performed by the module framework before any remote
client is constructed. -/
def paramsOk (p : ModuleParams) : Bool :=
  choicesOk p && requiredIfOk p

/-- A single-quote character, to spell the quotes of the failure message. -/
def sq : String := String.mk [Char.ofNat 39]

/-- The failure message built by both `except` handlers in `main`:
`Exception <name>: <text>` with single quotes (spelled via `sq`) around
the name. -/
def errMsg (name : String) (e : PyError) : String :=
  "Exception " ++ sq ++ name ++ sq ++ ": " ++ pyErrStr e

/-- How a run of `main` terminates: a JSON exit (with the `changed` flag and
the optional `namespace` payload), a `fail_json` with its message, an
uncaught Python error (such as the `exit_json(**existing)` on a list), a
rejection during argument validation, or falling off the end of `main`. -/
inductive Outcome where
  | exitJson (changed : Bool) (nsPayload : Option JVal)
  | failJson (msg : String)
  | crash (e : PyError)
  | validationFailure
  | fellThrough

/-- The `state == "present"` branch of `main`: look up matching namespaces;
on exactly one match fetch and report it unchanged; on no match create and
report changed; on several matches fall through to
`module.exit_json(**existing)`, which raises an uncaught `TypeError`
because `existing` is a list, not a mapping.  Exceptions inside the `try`
become a `fail_json` with the namespace name and the error text. -/
def reconcile_present {S : Type} (rm : RemoteModel S) (s : S)
    (p : ModuleParams) : Outcome × S × List ApiCall :=
  let r1 := get_namespaces_by_name rm s p.name p.type
  match r1.1 with
  | [ns0] =>
      let r2 := get_namespace rm r1.2.1 ns0.Id
      match r2.1 with
      | some ns =>
          (Outcome.exitJson false (some (camelValToSnake ns)), r2.2.1,
            r1.2.2 ++ r2.2.2)
      | none =>
          (Outcome.failJson (errMsg p.name PyError.attributeError), r2.2.1,
            r1.2.2 ++ r2.2.2)
  | [] =>
      let r2 := create_namespace rm r1.2.1 p.name p.type p.description
        p.creator_request_id p.vpc_id p.wait
      match r2.1 with
      | Except.ok ns =>
          (Outcome.exitJson true (some (camelValToSnake ns)), r2.2.1,
            r1.2.2 ++ r2.2.2)
      | Except.error e =>
          (Outcome.failJson (errMsg p.name e), r2.2.1, r1.2.2 ++ r2.2.2)
  | _ => (Outcome.crash PyError.typeError, r1.2.1, r1.2.2)

/-- The `state == "absent"` branch of `main`: look up matching namespaces
and delete `existing[0]`; on an empty lookup the subscript raises
`IndexError`, which the `except` handler turns into a `fail_json`. -/
def reconcile_absent {S : Type} (rm : RemoteModel S) (s : S)
    (p : ModuleParams) : Outcome × S × List ApiCall :=
  let r1 := get_namespaces_by_name rm s p.name p.type
  match r1.1 with
  | [] => (Outcome.failJson (errMsg p.name PyError.indexError), r1.2.1, r1.2.2)
  | ns0 :: _ =>
      let r2 := delete_namespace rm r1.2.1 ns0.Id
      (Outcome.exitJson true none, r2.1, r1.2.2 ++ r2.2)

/-- `main`: validate the arguments, then run the branch selected by
`state`.  (With valid arguments `state` is one of the two choices, so the
fall-through is unreachable.) -/
def run_main {S : Type} (rm : RemoteModel S) (s : S) (p : ModuleParams) :
    Outcome × S × List ApiCall :=
  if paramsOk p then
    if p.state == "present" then reconcile_present rm s p
    else if p.state == "absent" then reconcile_absent rm s p
    else (Outcome.fellThrough, s, [])
  else (Outcome.validationFailure, s, [])

/-- Recognize the create calls in a trace. -/
def isCreateCall : ApiCall → Bool
  | ApiCall.createPublicDns _ => true
  | ApiCall.createPrivateDns _ => true
  | _ => false

/-- Recognize the delete calls in a trace. -/
def isDeleteCall : ApiCall → Bool
  | ApiCall.deleteNamespace _ => true
  | _ => false

/-- Recognize the operation polls in a trace. -/
def isGetOperationCall : ApiCall → Bool
  | ApiCall.getOperation _ => true
  | _ => false

/-- The one create call the reconciler is expected to issue for a valid
present-state input of the given type: no vpc field for `DNS_PUBLIC`, a
`Vpc` field holding `vpc_id` for `DNS_PRIVATE`. -/
def expectedCreateCall (p : ModuleParams) : ApiCall :=
  if p.type == some "DNS_PRIVATE" then
    ApiCall.createPrivateDns
      (privParams p.name p.description p.creator_request_id p.vpc_id)
  else
    ApiCall.createPublicDns
      (pubParams p.name p.description p.creator_request_id)

/-- The full representation the stateful fake remote returns for a
namespace: its summary fields plus a datetime creation stamp. -/
def fakeDetail (ns : NsSummary) : JVal :=
  JVal.dict
    [("Id", JVal.str ns.Id), ("Name", JVal.str ns.Name),
     ("Type", JVal.str ns.NsType),
     ("createdAt", JVal.datetime "2019-01-01 00:00:00")]

/-- A stateful fake remote (the stateful fake of the spec): the state is the
set of existing namespace summaries.  A create call immediately adds a
namespace named after the request (id `ns-` + name) and returns the name as
operation id; `get_operation` reports `SUCCESS` with target `ns-` + id;
`delete` removes by id; `list` honours the type filter. -/
def fakeModel : RemoteModel (List NsSummary) :=
  { listNamespacesApi := fun s filt =>
      ({ Namespaces :=
          match filt with
          | some t => s.filter (fun ns => ns.NsType == t)
          | none => s }, s)
    getNamespaceApi := fun s nsId =>
      ({ Namespace :=
          match s.find? (fun ns => ns.Id == nsId) with
          | some ns => fakeDetail ns
          | none => JVal.dict [] }, s)
    getOperationApi := fun s oid =>
      ({ Operation := { Status := "SUCCESS", Targets := [("NAMESPACE", "ns-" ++ oid)] } }, s)
    createPublicApi := fun s params =>
      ({ OperationId := params.Name },
        { Id := "ns-" ++ params.Name, Name := params.Name,
          NsType := "DNS_PUBLIC" } :: s)
    createPrivateApi := fun s params =>
      ({ OperationId := params.Name },
        { Id := "ns-" ++ params.Name, Name := params.Name,
          NsType := "DNS_PRIVATE" } :: s)
    deleteNamespaceApi := fun s nsId =>
      s.filter (fun ns => !(ns.Id == nsId)) }

/-- A fake remote whose operations never complete: `get_operation` always
reports `PENDING`, so a waited-for create exhausts the poll budget. -/
def fakeStuckModel : RemoteModel (List NsSummary) :=
  { fakeModel with
    getOperationApi := fun s _ =>
      ({ Operation := { Status := "PENDING", Targets := [] } }, s) }

/-- Concrete present-state input of public type used to exercise the
theorems on the fake remote. -/
def wParamsPub : ModuleParams :=
  { state := "present", type := some "DNS_PUBLIC", name := "my-namespace",
    creator_request_id := none, description := none, wait := true,
    vpc_id := none }

/-- Concrete present-state input of private type used to exercise the
theorems on the fake remote. -/
def wParamsPriv : ModuleParams :=
  { state := "present", type := some "DNS_PRIVATE", name := "my-namespace",
    creator_request_id := none, description := none, wait := true,
    vpc_id := some "vpc-123" }

/-- Concrete namespace summary used to exercise the theorems on a remote
that already holds a match. -/
def wMatch : NsSummary :=
  { Id := "np-1", Name := "my-namespace", NsType := "DNS_PRIVATE" }

/-- A second concrete matching summary, for exercising the several-matches
path. -/
def wMatch2 : NsSummary :=
  { Id := "np-2", Name := "my-namespace", NsType := "DNS_PRIVATE" }

/-- Concrete absent-state input used to exercise the theorems on the fake
remote. -/
def wParamsAbs : ModuleParams :=
  { state := "absent", type := some "DNS_PRIVATE", name := "my-namespace",
    creator_request_id := none, description := none, wait := true,
    vpc_id := none }

/-- Concrete present-state input with `type` missing. -/
def wParamsNoType : ModuleParams :=
  { state := "present", type := none, name := "my-namespace",
    creator_request_id := none, description := none, wait := true,
    vpc_id := none }

/-- Concrete present-state input of private type with `vpc_id` omitted. -/
def wParamsPrivNoVpc : ModuleParams :=
  { state := "present", type := some "DNS_PRIVATE", name := "my-namespace",
    creator_request_id := none, description := none, wait := false,
    vpc_id := none }

/-- Concrete present-state input of public type with wait=false. -/
def wParamsPubNoWait : ModuleParams :=
  { state := "present", type := some "DNS_PUBLIC", name := "my-namespace",
    creator_request_id := none, description := none, wait := false,
    vpc_id := none }

/-! ## Helper lemmas -/

/-- Every call issued by the waiter loop is a poll of the given operation. -/
theorem waiterLoop_mem_poll {S : Type} (rm : RemoteModel S) (oid : String) :
    ∀ (fuel : Nat) (s : S) (c : ApiCall),
      c ∈ (waiterLoop rm oid fuel s).2.2 → c = ApiCall.getOperation oid := by
  intro fuel
  induction fuel with
  | zero => intro s c hc; simp [waiterLoop] at hc
  | succ n ih =>
      intro s c hc
      simp only [waiterLoop] at hc
      split at hc
      · simpa using hc
      · rcases List.mem_cons.mp hc with h | h
        · exact h
        · exact ih _ c h

/-- Every call issued by `waiter.wait` is a poll of the given operation. -/
theorem waiterWait_mem_poll {S : Type} (rm : RemoteModel S) (s : S)
    (oid : String) (c : ApiCall) (hc : c ∈ (waiterWait rm s oid).2.2) :
    c = ApiCall.getOperation oid :=
  waiterLoop_mem_poll rm oid sd_waiter_config.maxAttempts s c hc

/-- The trace of `create_public_dns_namespace` is its one create call
followed only by operation polls and namespace fetches. -/
theorem create_public_trace {S : Type} (rm : RemoteModel S) (s : S)
    (name : String) (desc cri : Option String) (wait : Bool) :
    ∃ rest,
      (create_public_dns_namespace rm s name desc cri wait).2.2 =
        ApiCall.createPublicDns (pubParams name desc cri) :: rest ∧
      ∀ c ∈ rest, isCreateCall c = false ∧ isDeleteCall c = false := by
  unfold create_public_dns_namespace
  cases wait with
  | false => exact ⟨[], by simp⟩
  | true =>
      simp only [if_true]
      split
      · refine ⟨_, rfl, ?_⟩
        intro c hc
        have hcp := waiterWait_mem_poll rm _ _ c hc
        subst hcp
        exact ⟨rfl, rfl⟩
      · split
        · refine ⟨_, rfl, ?_⟩
          intro c hc
          rcases List.mem_append.mp hc with h | h
          · have hcp := waiterWait_mem_poll rm _ _ c h
            subst hcp; exact ⟨rfl, rfl⟩
          · simp only [List.mem_singleton] at h
            subst h; exact ⟨rfl, rfl⟩
        · refine ⟨_, rfl, ?_⟩
          intro c hc
          rcases List.mem_append.mp hc with h | h
          · have hcp := waiterWait_mem_poll rm _ _ c h
            subst hcp; exact ⟨rfl, rfl⟩
          · rcases List.mem_cons.mp h with h1 | h1
            · subst h1; exact ⟨rfl, rfl⟩
            · simp only [List.mem_singleton] at h1
              subst h1; exact ⟨rfl, rfl⟩

/-- The trace of `create_private_dns_namespace` is its one create call
followed only by operation polls and namespace fetches. -/
theorem create_private_trace {S : Type} (rm : RemoteModel S) (s : S)
    (name : String) (desc cri vpc : Option String) (wait : Bool) :
    ∃ rest,
      (create_private_dns_namespace rm s name desc cri vpc wait).2.2 =
        ApiCall.createPrivateDns (privParams name desc cri vpc) :: rest ∧
      ∀ c ∈ rest, isCreateCall c = false ∧ isDeleteCall c = false := by
  unfold create_private_dns_namespace
  cases wait with
  | false => exact ⟨[], by simp⟩
  | true =>
      simp only [if_true]
      split
      · refine ⟨_, rfl, ?_⟩
        intro c hc
        have hcp := waiterWait_mem_poll rm _ _ c hc
        subst hcp
        exact ⟨rfl, rfl⟩
      · split
        · refine ⟨_, rfl, ?_⟩
          intro c hc
          rcases List.mem_append.mp hc with h | h
          · have hcp := waiterWait_mem_poll rm _ _ c h
            subst hcp; exact ⟨rfl, rfl⟩
          · simp only [List.mem_singleton] at h
            subst h; exact ⟨rfl, rfl⟩
        · refine ⟨_, rfl, ?_⟩
          intro c hc
          rcases List.mem_append.mp hc with h | h
          · have hcp := waiterWait_mem_poll rm _ _ c h
            subst hcp; exact ⟨rfl, rfl⟩
          · rcases List.mem_cons.mp h with h1 | h1
            · subst h1; exact ⟨rfl, rfl⟩
            · simp only [List.mem_singleton] at h1
              subst h1; exact ⟨rfl, rfl⟩

/-- The trace of `create_namespace` for either DNS type is one create call
of the matching kind followed only by polls and fetches. -/
theorem create_namespace_trace {S : Type} (rm : RemoteModel S) (s : S)
    (name : String) (t : String) (ht : t = "DNS_PUBLIC" ∨ t = "DNS_PRIVATE")
    (desc cri vpc : Option String) (wait : Bool) :
    ∃ rest,
      (create_namespace rm s name (some t) desc cri vpc wait).2.2 =
        (if t == "DNS_PRIVATE" then
          ApiCall.createPrivateDns (privParams name desc cri vpc)
         else ApiCall.createPublicDns (pubParams name desc cri)) :: rest ∧
      ∀ c ∈ rest, isCreateCall c = false ∧ isDeleteCall c = false := by
  rcases ht with h | h <;> subst h
  · obtain ⟨rest, hr, hmem⟩ := create_public_trace rm s name desc cri wait
    refine ⟨rest, ?_, hmem⟩
    simpa [create_namespace] using hr
  · obtain ⟨rest, hr, hmem⟩ := create_private_trace rm s name desc cri vpc wait
    refine ⟨rest, ?_, hmem⟩
    simpa [create_namespace] using hr

/-- Unfold `expectedCreateCall` through a known `type` parameter. -/
theorem expectedCreateCall_eq (p : ModuleParams) (t : String)
    (htype : p.type = some t) :
    expectedCreateCall p =
      (if t == "DNS_PRIVATE" then
        ApiCall.createPrivateDns
          (privParams p.name p.description p.creator_request_id p.vpc_id)
       else ApiCall.createPublicDns
          (pubParams p.name p.description p.creator_request_id)) := by
  have hsome : (p.type == some "DNS_PRIVATE") = (t == "DNS_PRIVATE") := by
    rw [htype]; rfl
  rw [expectedCreateCall, hsome]

/-- With a valid present-state input and no matching namespace, the
trace of the reconciler is the list call, then the expected type-specific create
call, then only polls and fetches; any JSON exit reports changed. -/
theorem reconcile_present_no_match {S : Type} (rm : RemoteModel S) (s : S)
    (p : ModuleParams) (t : String)
    (htype : p.type = some t) (ht : t = "DNS_PUBLIC" ∨ t = "DNS_PRIVATE")
    (hnomatch : ((rm.listNamespacesApi s (some t)).1.Namespaces.filter
      (fun ns => ns.Name == p.name)) = []) :
    ∃ rest,
      (reconcile_present rm s p).2.2 =
        ApiCall.listNamespaces (some t) :: expectedCreateCall p :: rest ∧
      (∀ c ∈ rest, isCreateCall c = false ∧ isDeleteCall c = false) ∧
      ∀ b nsv, (reconcile_present rm s p).1 = Outcome.exitJson b nsv →
        b = true := by
  have htr : pyTruthyStr (some t) = true := by
    rcases ht with h | h <;> subst h <;> rfl
  obtain ⟨rest, hr, hmem⟩ :=
    create_namespace_trace rm ((rm.listNamespacesApi s (some t)).2) p.name t ht
      p.description p.creator_request_id p.vpc_id p.wait
  refine ⟨rest, ?_, hmem, ?_⟩
  · simp only [reconcile_present, get_namespaces_by_name, list_namespaces,
      htype, htr, if_true, hnomatch]
    rw [expectedCreateCall_eq p t htype]
    rcases hcn : (create_namespace rm ((rm.listNamespacesApi s (some t)).2)
        p.name (some t) p.description p.creator_request_id p.vpc_id
        p.wait).1 with e | ns <;>
      simp only [hcn] <;> simp [hr]
  · simp only [reconcile_present, get_namespaces_by_name, list_namespaces,
      htype, htr, if_true, hnomatch]
    rcases hcn : (create_namespace rm ((rm.listNamespacesApi s (some t)).2)
        p.name (some t) p.description p.creator_request_id p.vpc_id
        p.wait).1 with e | ns <;>
      simp only [hcn] <;> intro b nsv h
    · exact absurd h (by simp)
    · injection h with hb _
      exact hb.symm

/-! ## Claims -/

/-- C1: for every valid present-state input (state=present, name, type, and
vpc_id when type=DNS_PRIVATE) against a remote state with no namespace
matching (name, type), the reconciler issues exactly one create call whose
parameter set is type-specific — no vpc field for DNS_PUBLIC (the
`CreatePublicParams` dict has no vpc entry), a `Vpc` field equal to vpc_id
for DNS_PRIVATE — it issues no delete call, any successful JSON exit of
the run reports changed=true, and without waiting the run does exit with
changed=true. -/
theorem c1_present_no_match_creates_once {S : Type} (rm : RemoteModel S)
    (s : S) (p : ModuleParams) (t : String)
    (hstate : p.state = "present") (htype : p.type = some t)
    (ht : t = "DNS_PUBLIC" ∨ t = "DNS_PRIVATE")
    (hvpc : t = "DNS_PRIVATE" → p.vpc_id.isSome)
    (hnomatch : ((rm.listNamespacesApi s (some t)).1.Namespaces.filter
      (fun ns => ns.Name == p.name)) = []) :
    ((run_main rm s p).2.2.filter isCreateCall) = [expectedCreateCall p] ∧
    ((run_main rm s p).2.2.filter isDeleteCall) = [] ∧
    (∀ b nsv, (run_main rm s p).1 = Outcome.exitJson b nsv → b = true) ∧
    (p.wait = false →
      ∃ nsv, (run_main rm s p).1 = Outcome.exitJson true nsv) := by
  have hok : paramsOk p = true := by
    rcases ht with h | h <;> subst h <;>
      simp [paramsOk, choicesOk, requiredIfOk, required_if_rules, paramValue,
        hstate, htype]
  have hrun : run_main rm s p = reconcile_present rm s p := by
    simp [run_main, hok, hstate]
  obtain ⟨rest, htrace, hmem, hchanged⟩ :=
    reconcile_present_no_match rm s p t htype ht hnomatch
  have hexp : isCreateCall (expectedCreateCall p) = true := by
    rw [expectedCreateCall_eq p t htype]
    split <;> rfl
  have hexpd : isDeleteCall (expectedCreateCall p) = false := by
    rw [expectedCreateCall_eq p t htype]
    split <;> rfl
  have hcreate_rest : rest.filter isCreateCall = [] :=
    List.filter_eq_nil_iff.mpr (fun c hc => by simp [(hmem c hc).1])
  have hdelete_rest : rest.filter isDeleteCall = [] :=
    List.filter_eq_nil_iff.mpr (fun c hc => by simp [(hmem c hc).2])
  have hlistc : isCreateCall (ApiCall.listNamespaces (some t)) = false := rfl
  have hlistd : isDeleteCall (ApiCall.listNamespaces (some t)) = false := rfl
  have hnowait : p.wait = false →
      ∃ nsv, (run_main rm s p).1 = Outcome.exitJson true nsv := by
    intro hw
    rw [hrun]
    have htr : pyTruthyStr (some t) = true := by
      rcases ht with h | h <;> subst h <;> rfl
    rcases ht with h | h <;> subst h <;>
      simp [reconcile_present, get_namespaces_by_name, list_namespaces,
        htype, htr, hnomatch, create_namespace,
        create_public_dns_namespace, create_private_dns_namespace, hw,
        Except.map]
  rw [hrun] at hnowait
  rw [hrun, htrace]
  refine ⟨?_, ?_, hchanged, hnowait⟩
  · simp [List.filter_cons, hlistc, hexp, hcreate_rest]
  · simp [List.filter_cons, hlistd, hexpd, hdelete_rest]

/-- Witness for C1: the private-type input against the empty fake remote
satisfies every hypothesis, and the conclusion evaluates. -/
theorem c1_witness :
    ((fakeModel.listNamespacesApi [] (some "DNS_PRIVATE")).1.Namespaces.filter
      (fun ns => ns.Name == wParamsPriv.name)) = [] ∧
    (((run_main fakeModel [] wParamsPriv).2.2.filter isCreateCall) =
        [expectedCreateCall wParamsPriv] ∧
      ((run_main fakeModel [] wParamsPriv).2.2.filter isDeleteCall) = [] ∧
      (∀ b nsv, (run_main fakeModel [] wParamsPriv).1 =
        Outcome.exitJson b nsv → b = true) ∧
      (wParamsPriv.wait = false →
        ∃ nsv, (run_main fakeModel [] wParamsPriv).1 =
          Outcome.exitJson true nsv)) :=
  ⟨rfl,
    c1_present_no_match_creates_once fakeModel [] wParamsPriv "DNS_PRIVATE"
      rfl rfl (Or.inr rfl) (fun _ => rfl) rfl⟩

/-- C2: for every present-state input where exactly one existing namespace
matches (name, type) and the remote returns a non-empty representation for
it, the run issues zero create calls — its full trace is the list call
followed by exactly one fetch of that namespace by its id — and exits with
changed=false carrying that namespace (normalized) as output. -/
theorem c2_present_one_match_unchanged {S : Type} (rm : RemoteModel S)
    (s : S) (p : ModuleParams) (t : String) (n0 : NsSummary)
    (hstate : p.state = "present") (htype : p.type = some t)
    (ht : t = "DNS_PUBLIC" ∨ t = "DNS_PRIVATE")
    (hmatch : ((rm.listNamespacesApi s (some t)).1.Namespaces.filter
      (fun ns => ns.Name == p.name)) = [n0])
    (htruthy : pyTruthy ((rm.getNamespaceApi
      ((rm.listNamespacesApi s (some t)).2) n0.Id).1.Namespace) = true) :
    run_main rm s p =
      (Outcome.exitJson false (some (camelValToSnake (jsonize
          ((rm.getNamespaceApi ((rm.listNamespacesApi s (some t)).2)
            n0.Id).1.Namespace)))),
        (rm.getNamespaceApi ((rm.listNamespacesApi s (some t)).2) n0.Id).2,
        [ApiCall.listNamespaces (some t), ApiCall.getNamespace n0.Id]) := by
  have hok : paramsOk p = true := by
    rcases ht with h | h <;> subst h <;>
      simp [paramsOk, choicesOk, requiredIfOk, required_if_rules, paramValue,
        hstate, htype]
  have htr : pyTruthyStr (some t) = true := by
    rcases ht with h | h <;> subst h <;> rfl
  have hpresent : (p.state == "present") = true := by rw [hstate]; rfl
  simp only [run_main, hok, hpresent, if_true]
  simp only [reconcile_present, get_namespaces_by_name, list_namespaces,
    get_namespace, htype, htr, if_true, hmatch, htruthy]
  rfl

/-- Witness for C2: the private-type input against a fake remote already
holding the matching namespace. -/
theorem c2_witness :
    wParamsPriv.state = "present" ∧
    ((fakeModel.listNamespacesApi [wMatch] (some "DNS_PRIVATE")).1.Namespaces.filter
      (fun ns => ns.Name == wParamsPriv.name)) = [wMatch] ∧
    run_main fakeModel [wMatch] wParamsPriv =
      (Outcome.exitJson false (some (camelValToSnake (jsonize
          ((fakeModel.getNamespaceApi
            ((fakeModel.listNamespacesApi [wMatch] (some "DNS_PRIVATE")).2)
            wMatch.Id).1.Namespace)))),
        (fakeModel.getNamespaceApi
          ((fakeModel.listNamespacesApi [wMatch] (some "DNS_PRIVATE")).2)
          wMatch.Id).2,
        [ApiCall.listNamespaces (some "DNS_PRIVATE"),
         ApiCall.getNamespace wMatch.Id]) :=
  ⟨rfl, by decide,
    c2_present_one_match_unchanged fakeModel [wMatch] wParamsPriv
      "DNS_PRIVATE" wMatch rfl rfl (Or.inr rfl) (by decide) rfl⟩

/-- C5: for every absent-state input against a remote state with exactly
one namespace matching (name, type), the run issues exactly one delete call
whose id argument is the id of the matched namespace — its full trace is the
list call followed by that delete — and exits with changed=true. -/
theorem c5_absent_one_match_deletes {S : Type} (rm : RemoteModel S) (s : S)
    (p : ModuleParams) (t : String) (n0 : NsSummary)
    (hstate : p.state = "absent") (htype : p.type = some t)
    (ht : t = "DNS_PUBLIC" ∨ t = "DNS_PRIVATE")
    (hmatch : ((rm.listNamespacesApi s (some t)).1.Namespaces.filter
      (fun ns => ns.Name == p.name)) = [n0]) :
    run_main rm s p =
      (Outcome.exitJson true none,
        rm.deleteNamespaceApi ((rm.listNamespacesApi s (some t)).2) n0.Id,
        [ApiCall.listNamespaces (some t), ApiCall.deleteNamespace n0.Id]) := by
  have hok : paramsOk p = true := by
    rcases ht with h | h <;> subst h <;>
      simp [paramsOk, choicesOk, requiredIfOk, required_if_rules, paramValue,
        hstate, htype]
  have htr : pyTruthyStr (some t) = true := by
    rcases ht with h | h <;> subst h <;> rfl
  have habs : (p.state == "absent") = true := by rw [hstate]; rfl
  have hpres : (p.state == "present") = false := by rw [hstate]; rfl
  simp only [run_main, hok, habs, hpres, if_true, if_false, Bool.false_eq_true]
  simp only [reconcile_absent, get_namespaces_by_name, list_namespaces,
    delete_namespace, htype, htr, if_true, hmatch]
  rfl

/-- Witness for C5: deleting the one matching namespace on the fake
remote. -/
theorem c5_witness :
    wParamsAbs.state = "absent" ∧
    ((fakeModel.listNamespacesApi [wMatch] (some "DNS_PRIVATE")).1.Namespaces.filter
      (fun ns => ns.Name == wParamsAbs.name)) = [wMatch] ∧
    run_main fakeModel [wMatch] wParamsAbs =
      (Outcome.exitJson true none,
        fakeModel.deleteNamespaceApi
          ((fakeModel.listNamespacesApi [wMatch] (some "DNS_PRIVATE")).2)
          wMatch.Id,
        [ApiCall.listNamespaces (some "DNS_PRIVATE"),
         ApiCall.deleteNamespace wMatch.Id]) :=
  ⟨rfl, by decide,
    c5_absent_one_match_deletes fakeModel [wMatch] wParamsAbs "DNS_PRIVATE"
      wMatch rfl rfl (Or.inr rfl) (by decide)⟩

/-- C6: for every absent-state input where zero namespaces match (name,
type), the run does not exit as an already-absent no-op: the subscript on
the empty lookup result raises, no delete call is issued (the trace is just
the list call), and the run terminates in the failure path with the
IndexError text wrapped in the failure message of the module. -/
theorem c6_absent_no_match_fails {S : Type} (rm : RemoteModel S) (s : S)
    (p : ModuleParams) (t : String)
    (hstate : p.state = "absent") (htype : p.type = some t)
    (ht : t = "DNS_PUBLIC" ∨ t = "DNS_PRIVATE")
    (hmatch : ((rm.listNamespacesApi s (some t)).1.Namespaces.filter
      (fun ns => ns.Name == p.name)) = []) :
    run_main rm s p =
      (Outcome.failJson (errMsg p.name PyError.indexError),
        (rm.listNamespacesApi s (some t)).2,
        [ApiCall.listNamespaces (some t)]) := by
  have hok : paramsOk p = true := by
    rcases ht with h | h <;> subst h <;>
      simp [paramsOk, choicesOk, requiredIfOk, required_if_rules, paramValue,
        hstate, htype]
  have htr : pyTruthyStr (some t) = true := by
    rcases ht with h | h <;> subst h <;> rfl
  have habs : (p.state == "absent") = true := by rw [hstate]; rfl
  have hpres : (p.state == "present") = false := by rw [hstate]; rfl
  simp only [run_main, hok, habs, hpres, if_true, if_false, Bool.false_eq_true]
  simp only [reconcile_absent, get_namespaces_by_name, list_namespaces,
    htype, htr, if_true, hmatch]

/-- Witness for C6: the absent-state input against the empty fake remote
ends in the failure path after only the list call. -/
theorem c6_witness :
    wParamsAbs.state = "absent" ∧
    ((fakeModel.listNamespacesApi [] (some "DNS_PRIVATE")).1.Namespaces.filter
      (fun ns => ns.Name == wParamsAbs.name)) = [] ∧
    run_main fakeModel [] wParamsAbs =
      (Outcome.failJson (errMsg wParamsAbs.name PyError.indexError),
        (fakeModel.listNamespacesApi [] (some "DNS_PRIVATE")).2,
        [ApiCall.listNamespaces (some "DNS_PRIVATE")]) :=
  ⟨rfl, by decide,
    c6_absent_no_match_fails fakeModel [] wParamsAbs "DNS_PRIVATE"
      rfl rfl (Or.inr rfl) (by decide)⟩

/-- C10: for every present-state run where two or more existing namespaces
match (name, type), the run issues no create and no delete call — its whole
trace is the single list call, so the remote namespace set is not modified
by this run — and it takes neither the changed=false fast path nor the
creation path: it crashes on `exit_json(**existing)` outside the handler. -/
theorem c10_present_multi_match_no_mutation {S : Type} (rm : RemoteModel S)
    (s : S) (p : ModuleParams) (t : String) (n0 n1 : NsSummary)
    (others : List NsSummary)
    (hstate : p.state = "present") (htype : p.type = some t)
    (ht : t = "DNS_PUBLIC" ∨ t = "DNS_PRIVATE")
    (hmatch : ((rm.listNamespacesApi s (some t)).1.Namespaces.filter
      (fun ns => ns.Name == p.name)) = n0 :: n1 :: others) :
    run_main rm s p =
      (Outcome.crash PyError.typeError,
        (rm.listNamespacesApi s (some t)).2,
        [ApiCall.listNamespaces (some t)]) := by
  have hok : paramsOk p = true := by
    rcases ht with h | h <;> subst h <;>
      simp [paramsOk, choicesOk, requiredIfOk, required_if_rules, paramValue,
        hstate, htype]
  have htr : pyTruthyStr (some t) = true := by
    rcases ht with h | h <;> subst h <;> rfl
  have hpresent : (p.state == "present") = true := by rw [hstate]; rfl
  simp only [run_main, hok, hpresent, if_true]
  simp only [reconcile_present, get_namespaces_by_name, list_namespaces,
    htype, htr, if_true, hmatch]

/-- Witness for C10: two matching namespaces on the fake remote. -/
theorem c10_witness :
    wParamsPriv.state = "present" ∧
    ((fakeModel.listNamespacesApi [wMatch, wMatch2]
        (some "DNS_PRIVATE")).1.Namespaces.filter
      (fun ns => ns.Name == wParamsPriv.name)) = [wMatch, wMatch2] ∧
    run_main fakeModel [wMatch, wMatch2] wParamsPriv =
      (Outcome.crash PyError.typeError,
        (fakeModel.listNamespacesApi [wMatch, wMatch2] (some "DNS_PRIVATE")).2,
        [ApiCall.listNamespaces (some "DNS_PRIVATE")]) :=
  ⟨rfl, by decide,
    c10_present_multi_match_no_mutation fakeModel [wMatch, wMatch2]
      wParamsPriv "DNS_PRIVATE" wMatch wMatch2 [] rfl rfl (Or.inr rfl)
      (by decide)⟩

/-- When no poll ever reports the expected status, the waiter loop fails
after issuing exactly `fuel` polls. -/
theorem waiterLoop_never_success {S : Type} (rm : RemoteModel S)
    (oid : String)
    (hnever : ∀ s2 : S, ((rm.getOperationApi s2 oid).1.Operation.Status ==
      sd_waiter_config.expected) = false) :
    ∀ (fuel : Nat) (s : S),
      (waiterLoop rm oid fuel s).1 = Except.error PyError.waiterError ∧
      (waiterLoop rm oid fuel s).2.2 =
        List.replicate fuel (ApiCall.getOperation oid) := by
  intro fuel
  induction fuel with
  | zero => intro s; exact ⟨rfl, rfl⟩
  | succ n ih =>
      intro s
      have hs := hnever s
      constructor
      · simp only [waiterLoop, hs, Bool.false_eq_true, if_false]
        exact (ih _).1
      · simp only [waiterLoop, hs, Bool.false_eq_true, if_false,
          List.replicate_succ]
        rw [(ih _).2]

/-- A waited-for public create against a remote that never reports success
fails with the waiter error after the full poll budget. -/
theorem create_public_never_success {S : Type} (rm : RemoteModel S) (s : S)
    (name : String) (desc cri : Option String)
    (hnever : ∀ (s2 : S) (oid : String),
      ((rm.getOperationApi s2 oid).1.Operation.Status ==
        sd_waiter_config.expected) = false) :
    (create_public_dns_namespace rm s name desc cri true).1 =
      Except.error PyError.waiterError ∧
    (create_public_dns_namespace rm s name desc cri true).2.2 =
      ApiCall.createPublicDns (pubParams name desc cri) ::
        List.replicate sd_waiter_config.maxAttempts
          (ApiCall.getOperation
            ((rm.createPublicApi s (pubParams name desc cri)).1.OperationId)) := by
  have h := waiterLoop_never_success rm
    ((rm.createPublicApi s (pubParams name desc cri)).1.OperationId)
    (fun s2 => hnever s2 _) sd_waiter_config.maxAttempts
    ((rm.createPublicApi s (pubParams name desc cri)).2)
  unfold create_public_dns_namespace waiterWait
  simp only [if_true]
  rw [h.1, h.2]
  exact ⟨rfl, rfl⟩

/-- A waited-for private create against a remote that never reports success
fails with the waiter error after the full poll budget. -/
theorem create_private_never_success {S : Type} (rm : RemoteModel S) (s : S)
    (name : String) (desc cri vpc : Option String)
    (hnever : ∀ (s2 : S) (oid : String),
      ((rm.getOperationApi s2 oid).1.Operation.Status ==
        sd_waiter_config.expected) = false) :
    (create_private_dns_namespace rm s name desc cri vpc true).1 =
      Except.error PyError.waiterError ∧
    (create_private_dns_namespace rm s name desc cri vpc true).2.2 =
      ApiCall.createPrivateDns (privParams name desc cri vpc) ::
        List.replicate sd_waiter_config.maxAttempts
          (ApiCall.getOperation
            ((rm.createPrivateApi s (privParams name desc cri vpc)).1.OperationId)) := by
  have h := waiterLoop_never_success rm
    ((rm.createPrivateApi s (privParams name desc cri vpc)).1.OperationId)
    (fun s2 => hnever s2 _) sd_waiter_config.maxAttempts
    ((rm.createPrivateApi s (privParams name desc cri vpc)).2)
  unfold create_private_dns_namespace waiterWait
  simp only [if_true]
  rw [h.1, h.2]
  exact ⟨rfl, rfl⟩

/-- C7: for every wait=true create whose operation status never equals
SUCCESS within the fixed attempt budget (`sd_waiter_config`: delay 5,
maxAttempts 10), the run surfaces a failure — a `fail_json`, never a
silent success — whose single message embeds the namespace name and the
underlying waiter error text, after exactly `maxAttempts` polls. -/
theorem c7_poll_exhaustion_fails {S : Type} (rm : RemoteModel S) (s : S)
    (p : ModuleParams) (t : String)
    (hstate : p.state = "present") (htype : p.type = some t)
    (ht : t = "DNS_PUBLIC" ∨ t = "DNS_PRIVATE") (hwait : p.wait = true)
    (hnomatch : ((rm.listNamespacesApi s (some t)).1.Namespaces.filter
      (fun ns => ns.Name == p.name)) = [])
    (hnever : ∀ (s2 : S) (oid : String),
      ((rm.getOperationApi s2 oid).1.Operation.Status ==
        sd_waiter_config.expected) = false) :
    ∃ (s2 : S) (oid : String),
      run_main rm s p =
        (Outcome.failJson ("Exception " ++ sq ++ p.name ++ sq ++ ": " ++
            pyErrStr PyError.waiterError), s2,
          ApiCall.listNamespaces (some t) :: expectedCreateCall p ::
            List.replicate sd_waiter_config.maxAttempts
              (ApiCall.getOperation oid)) := by
  have hok : paramsOk p = true := by
    rcases ht with h | h <;> subst h <;>
      simp [paramsOk, choicesOk, requiredIfOk, required_if_rules, paramValue,
        hstate, htype]
  have htr : pyTruthyStr (some t) = true := by
    rcases ht with h | h <;> subst h <;> rfl
  have hpresent : (p.state == "present") = true := by rw [hstate]; rfl
  rw [expectedCreateCall_eq p t htype]
  simp only [run_main, hok, hpresent, if_true]
  simp only [reconcile_present, get_namespaces_by_name, list_namespaces,
    htype, htr, if_true, hnomatch]
  rcases ht with h | h <;> subst h
  · have hc := create_public_never_success rm
      ((rm.listNamespacesApi s (some "DNS_PUBLIC")).2) p.name p.description
      p.creator_request_id hnever
    have hcn1 : (create_namespace rm
        ((rm.listNamespacesApi s (some "DNS_PUBLIC")).2) p.name
        (some "DNS_PUBLIC") p.description p.creator_request_id p.vpc_id
        p.wait).1 = Except.error PyError.waiterError := by
      simp only [create_namespace, hwait]
      simp [hc.1, Except.map]
    have hcn2 : (create_namespace rm
        ((rm.listNamespacesApi s (some "DNS_PUBLIC")).2) p.name
        (some "DNS_PUBLIC") p.description p.creator_request_id p.vpc_id
        p.wait).2.2 =
        ApiCall.createPublicDns
            (pubParams p.name p.description p.creator_request_id) ::
          List.replicate sd_waiter_config.maxAttempts
            (ApiCall.getOperation
              ((rm.createPublicApi
                ((rm.listNamespacesApi s (some "DNS_PUBLIC")).2)
                (pubParams p.name p.description
                  p.creator_request_id)).1.OperationId)) := by
      simp only [create_namespace, hwait]
      simp [hc.2]
    refine ⟨(create_namespace rm
        ((rm.listNamespacesApi s (some "DNS_PUBLIC")).2) p.name
        (some "DNS_PUBLIC") p.description p.creator_request_id p.vpc_id
        p.wait).2.1,
      ((rm.createPublicApi ((rm.listNamespacesApi s (some "DNS_PUBLIC")).2)
        (pubParams p.name p.description p.creator_request_id)).1.OperationId),
      ?_⟩
    simp only [hcn1, hcn2, errMsg]
    simp
  · have hc := create_private_never_success rm
      ((rm.listNamespacesApi s (some "DNS_PRIVATE")).2) p.name p.description
      p.creator_request_id p.vpc_id hnever
    have hcn1 : (create_namespace rm
        ((rm.listNamespacesApi s (some "DNS_PRIVATE")).2) p.name
        (some "DNS_PRIVATE") p.description p.creator_request_id p.vpc_id
        p.wait).1 = Except.error PyError.waiterError := by
      simp only [create_namespace, hwait]
      simp [hc.1, Except.map]
    have hcn2 : (create_namespace rm
        ((rm.listNamespacesApi s (some "DNS_PRIVATE")).2) p.name
        (some "DNS_PRIVATE") p.description p.creator_request_id p.vpc_id
        p.wait).2.2 =
        ApiCall.createPrivateDns
            (privParams p.name p.description p.creator_request_id p.vpc_id) ::
          List.replicate sd_waiter_config.maxAttempts
            (ApiCall.getOperation
              ((rm.createPrivateApi
                ((rm.listNamespacesApi s (some "DNS_PRIVATE")).2)
                (privParams p.name p.description p.creator_request_id
                  p.vpc_id)).1.OperationId)) := by
      simp only [create_namespace, hwait]
      simp [hc.2]
    refine ⟨(create_namespace rm
        ((rm.listNamespacesApi s (some "DNS_PRIVATE")).2) p.name
        (some "DNS_PRIVATE") p.description p.creator_request_id p.vpc_id
        p.wait).2.1,
      ((rm.createPrivateApi ((rm.listNamespacesApi s (some "DNS_PRIVATE")).2)
        (privParams p.name p.description p.creator_request_id
          p.vpc_id)).1.OperationId),
      ?_⟩
    simp only [hcn1, hcn2, errMsg]
    simp

/-- Witness for C7: the private-type input against the stuck fake remote
(status stays PENDING) fails after the full poll budget. -/
theorem c7_witness :
    wParamsPriv.wait = true ∧
    ((fakeStuckModel.listNamespacesApi [] (some "DNS_PRIVATE")).1.Namespaces.filter
      (fun ns => ns.Name == wParamsPriv.name)) = [] ∧
    ∃ (s2 : List NsSummary) (oid : String),
      run_main fakeStuckModel [] wParamsPriv =
        (Outcome.failJson ("Exception " ++ sq ++ wParamsPriv.name ++ sq ++
            ": " ++ pyErrStr PyError.waiterError), s2,
          ApiCall.listNamespaces (some "DNS_PRIVATE") ::
            expectedCreateCall wParamsPriv ::
            List.replicate sd_waiter_config.maxAttempts
              (ApiCall.getOperation oid)) :=
  ⟨rfl, by decide,
    c7_poll_exhaustion_fails fakeStuckModel [] wParamsPriv "DNS_PRIVATE"
      rfl rfl (Or.inr rfl) rfl rfl (fun _ _ => rfl)⟩

/-- A waiter loop with fuel left whose first poll already reports the
expected status stops after that one poll. -/
theorem waiterLoop_first_success {S : Type} (rm : RemoteModel S)
    (oid : String) (fuel : Nat) (s : S)
    (h : ((rm.getOperationApi s oid).1.Operation.Status ==
      sd_waiter_config.expected) = true) :
    waiterLoop rm oid (Nat.succ fuel) s =
      (Except.ok (), (rm.getOperationApi s oid).2,
        [ApiCall.getOperation oid]) := by
  simp only [waiterLoop, h, if_true]

/-- `waiter.wait` whose first poll already reports the expected status
stops after that one poll. -/
theorem waiterWait_first_success {S : Type} (rm : RemoteModel S) (s : S)
    (oid : String)
    (h : ((rm.getOperationApi s oid).1.Operation.Status ==
      sd_waiter_config.expected) = true) :
    waiterWait rm s oid =
      (Except.ok (), (rm.getOperationApi s oid).2,
        [ApiCall.getOperation oid]) := by
  show waiterLoop rm oid 10 s = _
  rw [show (10 : Nat) = Nat.succ 9 from rfl]
  exact waiterLoop_first_success rm oid 9 s h

/-- C8 (idempotence): running reconcile-present twice with identical valid
inputs against the stateful fake remote — whose successful create adds a
namespace with the requested name and type — reports changed=true on the
first run and changed=false on the second, and the second run issues no
create call. -/
theorem c8_reconcile_present_idempotent (n : String) (t : String)
    (ht : t = "DNS_PUBLIC" ∨ t = "DNS_PRIVATE")
    (desc cri vpc : Option String) (b : Bool) :
    (∃ v1, (run_main fakeModel []
      { state := "present", type := some t, name := n,
        creator_request_id := cri, description := desc, wait := b,
        vpc_id := vpc }).1 = Outcome.exitJson true v1) ∧
    (∃ v2, (run_main fakeModel
      ((run_main fakeModel []
        { state := "present", type := some t, name := n,
          creator_request_id := cri, description := desc, wait := b,
          vpc_id := vpc }).2.1)
      { state := "present", type := some t, name := n,
        creator_request_id := cri, description := desc, wait := b,
        vpc_id := vpc }).1 = Outcome.exitJson false v2) ∧
    ((run_main fakeModel
      ((run_main fakeModel []
        { state := "present", type := some t, name := n,
          creator_request_id := cri, description := desc, wait := b,
          vpc_id := vpc }).2.1)
      { state := "present", type := some t, name := n,
        creator_request_id := cri, description := desc, wait := b,
        vpc_id := vpc }).2.2.filter isCreateCall) = [] := by
  rcases ht with h | h <;> subst h <;> cases b <;>
    simp [run_main, paramsOk, choicesOk, requiredIfOk, required_if_rules,
      paramValue, reconcile_present, get_namespaces_by_name, list_namespaces,
      get_namespace, create_namespace, create_public_dns_namespace,
      create_private_dns_namespace, pubParams, privParams, targetsGet,
      fakeModel, fakeDetail, pyTruthy, pyTruthyStr, waiterWait_first_success,
      sd_waiter_config, Except.map, isCreateCall]

/-- Witness for C8 at concrete inputs. -/
theorem c8_witness :
    ("DNS_PRIVATE" = "DNS_PUBLIC" ∨ "DNS_PRIVATE" = "DNS_PRIVATE") ∧
    ((∃ v1, (run_main fakeModel []
      { state := "present", type := some "DNS_PRIVATE", name := "my-namespace",
        creator_request_id := none, description := none, wait := true,
        vpc_id := some "vpc-123" }).1 = Outcome.exitJson true v1) ∧
    (∃ v2, (run_main fakeModel
      ((run_main fakeModel []
        { state := "present", type := some "DNS_PRIVATE", name := "my-namespace",
          creator_request_id := none, description := none, wait := true,
          vpc_id := some "vpc-123" }).2.1)
      { state := "present", type := some "DNS_PRIVATE", name := "my-namespace",
        creator_request_id := none, description := none, wait := true,
        vpc_id := some "vpc-123" }).1 = Outcome.exitJson false v2) ∧
    ((run_main fakeModel
      ((run_main fakeModel []
        { state := "present", type := some "DNS_PRIVATE", name := "my-namespace",
          creator_request_id := none, description := none, wait := true,
          vpc_id := some "vpc-123" }).2.1)
      { state := "present", type := some "DNS_PRIVATE", name := "my-namespace",
        creator_request_id := none, description := none, wait := true,
        vpc_id := some "vpc-123" }).2.2.filter isCreateCall) = []) :=
  ⟨Or.inr rfl,
    c8_reconcile_present_idempotent "my-namespace" "DNS_PRIVATE" (Or.inr rfl)
      none none (some "vpc-123") true⟩

/-- C3 evaluated on the code: a present-state input without `type` is
rejected before any remote call, but a DNS_PRIVATE input without `vpc_id`
is NOT rejected — the `required_if` rule is keyed on the value `private`,
which the `type` choices (DNS_PRIVATE, DNS_PUBLIC) can never equal — so the
run passes validation and issues remote calls, ending in a create whose
`Vpc` argument is `None`. -/
theorem c3_vpc_validation_never_fires :
    run_main fakeModel [] wParamsNoType = (Outcome.validationFailure, [], []) ∧
    paramsOk wParamsPrivNoVpc = true ∧
    run_main fakeModel [] wParamsPrivNoVpc =
      (Outcome.exitJson true
        (some (JVal.dict [("operation_id", JVal.str "my-namespace")])),
       [{ Id := "ns-my-namespace", Name := "my-namespace",
          NsType := "DNS_PRIVATE" }],
       [ApiCall.listNamespaces (some "DNS_PRIVATE"),
        ApiCall.createPrivateDns
          { Name := "my-namespace", Vpc := none, CreatorRequestId := none,
            description := none }]) :=
  ⟨rfl, rfl, rfl⟩

/-- C4 evaluated on the code: a wait=false create issues no poll call and
reports changed=true, but the operation id is returned nested inside the
`namespace` output (as its `operation_id` entry after key conversion) —
there is no top-level `operation_id` output, and a `namespace` output IS
produced even though nothing was waited for or already existing. -/
theorem c4_wait_false_output_is_wrapped :
    ((run_main fakeModel [] wParamsPubNoWait).2.2.filter
      isGetOperationCall) = [] ∧
    run_main fakeModel [] wParamsPubNoWait =
      (Outcome.exitJson true
        (some (JVal.dict [("operation_id", JVal.str "my-namespace")])),
       [{ Id := "ns-my-namespace", Name := "my-namespace",
          NsType := "DNS_PUBLIC" }],
       [ApiCall.listNamespaces (some "DNS_PUBLIC"),
        ApiCall.createPublicDns
          { Name := "my-namespace", CreatorRequestId := none,
            description := none }]) :=
  ⟨rfl, rfl⟩

/-- An entry whose key differs from the updated key passes through
`alistUpdate` unchanged. -/
theorem alistUpdate_mem_ne (entries : List (String × JVal)) (k k0 : String)
    (v : JVal) (f : JVal → JVal) (hmem : (k, v) ∈ entries) (hne : k ≠ k0) :
    (k, v) ∈ alistUpdate entries k0 f := by
  unfold alistUpdate
  refine List.mem_map.mpr ⟨(k, v), hmem, ?_⟩
  simp [hne]

/-- The entry at the updated key has `f` applied by `alistUpdate`. -/
theorem alistUpdate_mem_eq (entries : List (String × JVal)) (k0 : String)
    (v : JVal) (f : JVal → JVal) (hmem : (k0, v) ∈ entries) :
    (k0, f v) ∈ alistUpdate entries k0 f := by
  unfold alistUpdate
  refine List.mem_map.mpr ⟨(k0, v), hmem, ?_⟩
  simp

/-- The recursive key renaming is entry-wise. -/
theorem camelEntriesToSnake_eq_map (entries : List (String × JVal)) :
    camelEntriesToSnake entries =
      entries.map (fun kv => (camelToSnake kv.1, camelValToSnake kv.2)) := by
  induction entries with
  | nil => rfl
  | cons kv rest ih =>
      cases kv with
      | mk k v => simp [camelEntriesToSnake, ih]

/-- C9: normalization of a fetched representation leaves every field
unchanged except the timestamp fields the source names — the top-level
`createdAt` and the per-deployment/per-event `createdAt`/`updatedAt`
entries — which become their Python string form; after `jsonize`, every
key in the returned result is renamed from camel case to snake case with
values otherwise preserved (up to the same recursive renaming). -/
theorem c9_normalization_frame (entries : List (String × JVal)) (k : String)
    (v : JVal) (hmem : (k, v) ∈ entries) :
    ((k ≠ "createdAt" ∧ k ≠ "deployments" ∧ k ≠ "events") →
      (k, v) ∈ jsonizeEntries entries) ∧
    (k = "createdAt" → (k, JVal.str (pyStr v)) ∈ jsonizeEntries entries) ∧
    (k = "deployments" →
      (k, mapElems jsonizeDeployment v) ∈ jsonizeEntries entries) ∧
    (k = "events" → (k, mapElems jsonizeEvent v) ∈ jsonizeEntries entries) ∧
    (∀ (dkvs : List (String × JVal)) (k2 : String) (v2 : JVal),
      (k2, v2) ∈ dkvs →
      ((k2 ≠ "createdAt" ∧ k2 ≠ "updatedAt") →
        (k2, v2) ∈ jsonizeDeploymentEntries dkvs) ∧
      (k2 = "createdAt" ∨ k2 = "updatedAt" →
        (k2, JVal.str (pyStr v2)) ∈ jsonizeDeploymentEntries dkvs)) ∧
    (∀ (ekvs : List (String × JVal)) (k3 : String) (v3 : JVal),
      (k3, v3) ∈ ekvs →
      (k3 ≠ "createdAt" → (k3, v3) ∈ jsonizeEventEntries ekvs) ∧
      (k3 = "createdAt" →
        (k3, JVal.str (pyStr v3)) ∈ jsonizeEventEntries ekvs)) ∧
    camelValToSnake (jsonize (JVal.dict entries)) =
      JVal.dict ((jsonizeEntries entries).map
        (fun kv => (camelToSnake kv.1, camelValToSnake kv.2))) := by
  refine ⟨?_, ?_, ?_, ?_, ?_, ?_, ?_⟩
  · rintro ⟨h1, h2, h3⟩
    simp only [jsonizeEntries]
    exact alistUpdate_mem_ne _ _ _ _ _
      (alistUpdate_mem_ne _ _ _ _ _
        (alistUpdate_mem_ne _ _ _ _ _ hmem h1) h2) h3
  · intro hk; subst hk
    simp only [jsonizeEntries]
    refine alistUpdate_mem_ne _ _ _ _ _
      (alistUpdate_mem_ne _ _ _ _ _ ?_ (by decide)) (by decide)
    exact alistUpdate_mem_eq _ _ _ _ hmem
  · intro hk; subst hk
    simp only [jsonizeEntries]
    refine alistUpdate_mem_ne _ _ _ _ _ ?_ (by decide)
    exact alistUpdate_mem_eq _ _ _ _
      (alistUpdate_mem_ne _ _ _ _ _ hmem (by decide))
  · intro hk; subst hk
    simp only [jsonizeEntries]
    exact alistUpdate_mem_eq _ _ _ _
      (alistUpdate_mem_ne _ _ _ _ _
        (alistUpdate_mem_ne _ _ _ _ _ hmem (by decide)) (by decide))
  · intro dkvs k2 v2 hmem2
    constructor
    · rintro ⟨h1, h2⟩
      simp only [jsonizeDeploymentEntries]
      exact alistUpdate_mem_ne _ _ _ _ _
        (alistUpdate_mem_ne _ _ _ _ _ hmem2 h1) h2
    · rintro (hk | hk) <;> subst hk <;> simp only [jsonizeDeploymentEntries]
      · exact alistUpdate_mem_ne _ _ _ _ _
          (alistUpdate_mem_eq _ _ _ _ hmem2) (by decide)
      · exact alistUpdate_mem_eq _ _ _ _
          (alistUpdate_mem_ne _ _ _ _ _ hmem2 (by decide))
  · intro ekvs k3 v3 hmem3
    constructor
    · intro h1
      simp only [jsonizeEventEntries]
      exact alistUpdate_mem_ne _ _ _ _ _ hmem3 h1
    · intro hk; subst hk
      simp only [jsonizeEventEntries]
      exact alistUpdate_mem_eq _ _ _ _ hmem3
  · simp only [jsonize, camelValToSnake, camelEntriesToSnake_eq_map]

/-- Witness for C9 on a concrete representation holding a datetime
creation stamp. -/
theorem c9_witness :
    (("createdAt", JVal.datetime "2019-01-01 00:00:00") ∈
      ([("createdAt", JVal.datetime "2019-01-01 00:00:00"),
        ("Id", JVal.str "np-1")] : List (String × JVal))) ∧
    (("createdAt" = "createdAt" →
      ("createdAt", JVal.str (pyStr (JVal.datetime "2019-01-01 00:00:00"))) ∈
        jsonizeEntries
          [("createdAt", JVal.datetime "2019-01-01 00:00:00"),
           ("Id", JVal.str "np-1")]) ∧
      camelValToSnake (jsonize (JVal.dict
        [("createdAt", JVal.datetime "2019-01-01 00:00:00"),
         ("Id", JVal.str "np-1")])) =
        JVal.dict ((jsonizeEntries
          [("createdAt", JVal.datetime "2019-01-01 00:00:00"),
           ("Id", JVal.str "np-1")]).map
          (fun kv => (camelToSnake kv.1, camelValToSnake kv.2)))) :=
  ⟨List.Mem.head _,
    (c9_normalization_frame
      [("createdAt", JVal.datetime "2019-01-01 00:00:00"),
       ("Id", JVal.str "np-1")]
      "createdAt" (JVal.datetime "2019-01-01 00:00:00")
      (List.Mem.head _)).2.1,
    (c9_normalization_frame
      [("createdAt", JVal.datetime "2019-01-01 00:00:00"),
       ("Id", JVal.str "np-1")]
      "createdAt" (JVal.datetime "2019-01-01 00:00:00")
      (List.Mem.head _)).2.2.2.2.2.2⟩

end SDNamespace
